import Mathlib

/-!
Verification of the SnapCast render service against its design
specification.  The Go sources are shallowly embedded: pure
computations (crop arithmetic, auth decision, template selection,
browser-path probing) become Lean functions; the effectful render
pipeline and HTTP handler become functions over an explicit oracle
recording the outcome of each external call (browser engine, file
system, template engine), returning the response together with a
trace of the effects performed.
-/

deriving instance DecidableEq for Except

namespace SnapCast

/-! ## Numeric model

Go `float64` values coming back from the browser (element rect and
device pixel ratio) are modelled as rationals.  Go's `int(f)`
conversion truncates toward zero, which for a rational `num/den`
(with `den > 0`) is `Int.tdiv num den`. -/

/-- Go integer conversion `int(f)`: truncation toward zero. -/
def ratTrunc (q : Rat) : Int := Int.tdiv q.num (q.den : Int)

/-- Floor of a rational (`Int` division by the positive denominator
rounds toward negative infinity).  Used only by the spec-side crop
formula. -/
def ratFloor (q : Rat) : Int := q.num / (q.den : Int)

/-- Ceiling of a rational, used only by the spec-side crop formula. -/
def ratCeil (q : Rat) : Int := -ratFloor (-q)

/-! ## Measured element rectangle

`main.go` (RenderScreenshot) deserializes the measurement script's
JSON into a local `Rect struct { X, Y, W, H, DPR float64 }`. -/

/-- The measured element rectangle and device pixel ratio, as
unmarshalled in `RenderScreenshot` (main.go). -/
structure Rect where
  X : Rat
  Y : Rat
  W : Rat
  H : Rat
  DPR : Rat
deriving DecidableEq

/-! ## Crop and encode (main.go lines 280-300)

The Go code computes
  `x := int(r.X * r.DPR)` … `h := int(r.H * r.DPR)`
then clamps
  `x = max(0, x); y = max(0, y); w = min(w, bounds.Dx()-x);
   h = min(h, bounds.Dy()-y)`
and builds `crop := image.Rect(x, y, x+w, y+h)`;
`image.Rect` swaps coordinates per axis when given in the wrong
order.  `png.Encode` (Go standard library, image/png/writer.go)
rejects images whose width or height is `<= 0` or `>= 1<<32` with a
`FormatError("invalid image size: WxH")`. -/

/-- Device-pixel x before clamping: `int(r.X * r.DPR)`. -/
def devX (r : Rect) : Int := ratTrunc (r.X * r.DPR)

/-- Device-pixel y before clamping: `int(r.Y * r.DPR)`. -/
def devY (r : Rect) : Int := ratTrunc (r.Y * r.DPR)

/-- Device-pixel width before clamping: `int(r.W * r.DPR)`. -/
def devW (r : Rect) : Int := ratTrunc (r.W * r.DPR)

/-- Device-pixel height before clamping: `int(r.H * r.DPR)`. -/
def devH (r : Rect) : Int := ratTrunc (r.H * r.DPR)

/-- Clamped crop x: `x = max(0, x)`. -/
def cropX (r : Rect) : Int := max 0 (devX r)

/-- Clamped crop y: `y = max(0, y)`. -/
def cropY (r : Rect) : Int := max 0 (devY r)

/-- Clamped crop width: `w = min(w, bounds.Dx()-x)` (with `x`
already clamped). -/
def cropW (r : Rect) (fw : Int) : Int := min (devW r) (fw - cropX r)

/-- Clamped crop height: `h = min(h, bounds.Dy()-y)` (with `y`
already clamped). -/
def cropH (r : Rect) (fh : Int) : Int := min (devH r) (fh - cropY r)

/-- Go `image.Rect x0 y0 x1 y1`: canonicalizes by swapping the
coordinates of an axis when `min > max`. -/
def imageRect (x0 y0 x1 y1 : Int) : Int × Int × Int × Int :=
  let px := if x0 > x1 then (x1, x0) else (x0, x1)
  let py := if y0 > y1 then (y1, y0) else (y0, y1)
  (px.1, py.1, px.2, py.2)

/-- Go `png.Encode` size check (image/png/writer.go): the encoder
fails on images whose width or height is non-positive or at least
`1<<32`; otherwise we record the encoded image by its dimensions. -/
def pngEncodeDims (w h : Int) : Except String (Int × Int) :=
  if w ≤ 0 ∨ h ≤ 0 ∨ 2 ^ 32 ≤ w ∨ 2 ^ 32 ≤ h then
    .error ("invalid image size: " ++ toString w ++ "x" ++ toString h)
  else .ok (w, h)

/-- The crop-and-encode tail of `RenderScreenshot` (main.go lines
280-300): compute the device-pixel rectangle, clamp it to the frame
`fw × fh`, build the (canonicalized) sub-image rectangle and encode
it as a PNG, reporting the output dimensions. -/
def cropAndEncode (r : Rect) (fw fh : Int) : Except String (Int × Int) :=
  let x := cropX r
  let y := cropY r
  let w := cropW r fw
  let h := cropH r fh
  let c := imageRect x y (x + w) (y + h)
  pngEncodeDims (c.2.2.1 - c.1) (c.2.2.2 - c.2.1)

/-- Modelled from the spec (§4.2 step 8, quoted by claim C1): the
crop dimensions the specification prescribes, namely
`x = floor(rectX*dpr)`, `y = floor(rectY*dpr)`, `w = ceil(rectW*dpr)`,
`h = ceil(rectH*dpr)` with `w` and `h` then clamped so that
`w <= frameWidth - x` and `h <= frameHeight - y`.  This definition
follows the spec's words; it exists only to be compared with the
code-derived `cropAndEncode`. -/
def specCropDims (r : Rect) (fw fh : Int) : Int × Int :=
  let x := ratFloor (r.X * r.DPR)
  let y := ratFloor (r.Y * r.DPR)
  let w := ratCeil (r.W * r.DPR)
  let h := ratCeil (r.H * r.DPR)
  (min w (fw - x), min h (fh - y))

/-- Helper: when the clamped crop width and height are positive and
the frame is smaller than `2^32`, crop-and-encode succeeds and the
output dimensions are exactly the clamped width and height. -/
theorem cropAndEncode_ok (r : Rect) (fw fh : Int)
    (hw : 0 < cropW r fw) (hh : 0 < cropH r fh)
    (hfw : fw < 2 ^ 32) (hfh : fh < 2 ^ 32) :
    cropAndEncode r fw fh = .ok (cropW r fw, cropH r fh) := by
  have hx : 0 ≤ cropX r := le_max_left 0 _
  have hy : 0 ≤ cropY r := le_max_left 0 _
  have hwle : cropW r fw ≤ fw - cropX r := min_le_right _ _
  have hhle : cropH r fh ≤ fh - cropY r := min_le_right _ _
  unfold cropAndEncode imageRect pngEncodeDims
  have h1 : ¬ (cropX r + cropW r fw < cropX r) := by omega
  have h2 : ¬ (cropY r + cropH r fh < cropY r) := by omega
  simp only [gt_iff_lt, h1, if_false, h2]
  have e1 : cropX r + cropW r fw - cropX r = cropW r fw := by omega
  have e2 : cropY r + cropH r fh - cropY r = cropH r fh := by omega
  rw [e1, e2]
  have h3 : ¬ (cropW r fw ≤ 0 ∨ cropH r fh ≤ 0 ∨
      2 ^ 32 ≤ cropW r fw ∨ 2 ^ 32 ≤ cropH r fh) := by omega
  simp only [h3, if_false]

/-! ## Temporary file naming (main.go line 206)

`tmpFile := filepath.Join(os.TempDir(), fmt.Sprintf("screenshot_%d.html", time.Now().UnixNano()))`.
The nanosecond timestamp is modelled as a natural number `ts`;
`%d` formatting is decimal notation, i.e. `Nat.repr`. -/

/-- The temporary HTML file name used by `RenderScreenshot` for a
call observing timestamp `ts`. -/
def tmpFile (tempDir : String) (ts : Nat) : String :=
  tempDir ++ "/" ++ ("screenshot_" ++ Nat.repr ts ++ ".html")

/-- File-system effects performed by the pipeline. -/
inductive FsOp where
  | write (path : String) (content : String)
  | remove (path : String)
deriving DecidableEq

/-! ## Render pipeline (main.go RenderScreenshot)

Each external call made by `RenderScreenshot` — the file write, the
two `chromedp.Run` batches, `json.Unmarshal`, the full-frame
capture and `png.Decode` — is an input supplied by an oracle; the
function composes them exactly as the Go code does, producing the
result together with the trace of file-system operations (the
deferred `os.Remove` runs on every exit path after a successful
write). -/

/-- Outcomes of the external calls inside one `RenderScreenshot`
invocation. `decode` yields the decoded frame's dimensions
(`img.Bounds()` of the PNG), `none` standing for a nil image. -/
structure RenderOracle where
  writeErr : Option String
  nav : Except String Unit
  measureJs : Except String String
  parseRect : Except String Rect
  capture : Except String (List Nat)
  decode : Except String (Option (Int × Int))

/-- The stage chain of `RenderScreenshot` after the temporary file
has been written (main.go lines 224-300): navigate / wait / scroll,
measure, unmarshal, capture, the empty-bytes check, decode, the
nil-image check, then crop-and-encode; each stage's failure aborts
the rest with its wrapped error. -/
def renderResult (o : RenderOracle) : Except String (Int × Int) :=
  match o.nav with
  | .error e => .error ("failed to evaluate JS: " ++ e)
  | .ok _ =>
    match o.measureJs with
    | .error e => .error e
    | .ok _ =>
      match o.parseRect with
      | .error e => .error e
      | .ok r =>
        match o.capture with
        | .error e => .error ("failed to take screenshot: " ++ e)
        | .ok full =>
          if full.length = 0 then .error "screenshot data is empty"
          else
            match o.decode with
            | .error e => .error ("failed to decode screenshot: " ++ e)
            | .ok none => .error "decoded image is nil"
            | .ok (some (fw, fh)) => cropAndEncode r fw fh

/-- Shallow embedding of `RenderScreenshot` (main.go lines 202-301):
write the HTML to the timestamp-named temporary file; if the write
fails, return its error with nothing scheduled; otherwise run the
stage chain, with the deferred `os.Remove` of the temporary file
performed on every exit path (the trace brackets the whole
invocation between the write and the remove, whatever the result). -/
def RenderScreenshot (o : RenderOracle) (tempDir : String) (ts : Nat)
    (html : String) : Except String (Int × Int) × List FsOp :=
  let tmp := tmpFile tempDir ts
  match o.writeErr with
  | some e => (.error e, [])
  | none =>
    (renderResult o, [FsOp.write tmp html, FsOp.remove tmp])

/-! ## Tab context release (main.go NewTabContext, lines 318-325)

`NewTabContext` wraps the shared allocator in a new tab context and
a deadline, and returns the composite release function
`func() { cancel(); browserCancel() }`.  A Go `context.CancelFunc`
is idempotent: after the first call, further calls do nothing.  The
state of one tab context is therefore two monotone flags, and the
release function is the sequence of the two cancel calls. -/

/-- The two cancellables owned by a tab context. -/
inductive CancelEvent where
  | timeout
  | tab
deriving DecidableEq

/-- Cancellation state of a tab context. -/
structure TabCtxState where
  timeoutCancelled : Bool
  tabCancelled : Bool
deriving DecidableEq

/-- One `context.CancelFunc` call: sets the flag; calling it on an
already-cancelled context changes nothing (Go context contract). -/
def runCancel : CancelEvent → TabCtxState → TabCtxState
  | .timeout, s => { s with timeoutCancelled := true }
  | .tab, s => { s with tabCancelled := true }

/-- The calls made by the release function returned by
`NewTabContext`, in source order: `cancel()` (the deadline timer),
then `browserCancel()` (the tab's execution context). -/
def releaseCalls : List CancelEvent := [.timeout, .tab]

/-- Running the composite release function on a tab-context state:
performs the two cancel calls in order and reports the call trace. -/
def runRelease (s : TabCtxState) : TabCtxState × List CancelEvent :=
  (releaseCalls.foldl (fun st e => runCancel e st) s, releaseCalls)

/-! ## Auth middleware (main.go AuthMiddleware, lines 303-316) -/

/-- Result of the middleware: abort with a status and a JSON error
body, or pass the request on (`c.Next()`). -/
inductive AuthOutcome where
  | abort (status : Nat) (jsonError : String)
  | next
deriving DecidableEq

/-- Shallow embedding of `AuthMiddleware`: reject with 401 and a
JSON error body exactly when the configured token is non-empty and
the `Authorization` header differs from it. -/
def AuthMiddleware (token authHeader : String) : AuthOutcome :=
  if token ≠ "" ∧ authHeader ≠ token then .abort 401 "unauthorized"
  else .next

/-! ## Browser path resolution (main.go lines 143-200)

`resolveBrowserPath` returns the configured path when non-empty,
else probes a fixed OS-specific list with `os.Stat`, storing the
first hit back into `globalBrowserPath`.  The configuration cell is
the `String` state threaded through; `os.Stat` existence is the
oracle `stat`.  The result is `(returned path, new state, probe
trace)`. -/

/-- Operating systems distinguished by `runtime.GOOS` in
`resolveBrowserPath`. -/
inductive GOOS where
  | windows
  | linux
  | other (name : String)
deriving DecidableEq

/-- The fixed Windows probe list of `findWindowsChromeOrEdge`
(main.go lines 158-171); `localAppData` is `os.Getenv("LOCALAPPDATA")`. -/
def windowsChromePaths (localAppData : String) : List String :=
  ["C:\\Program Files\\Google\\Chrome\\Application\\chrome.exe",
   "C:\\Program Files (x86)\\Google\\Chrome\\Application\\chrome.exe",
   localAppData ++ "\\Google\\Chrome\\Application\\chrome.exe",
   "C:\\Program Files (x86)\\Microsoft\\Edge\\Application\\msedge.exe",
   "C:\\Program Files\\Microsoft\\Edge\\Application\\msedge.exe"]

/-- The fixed Linux probe list of `findLinuxChromePath`
(main.go lines 184-190). -/
def linuxChromePaths : List String :=
  ["/usr/bin/google-chrome", "/usr/bin/chromium-browser",
   "/usr/bin/chromium", "/snap/bin/chromium"]

/-- The probe loop shared by both finders: stat each candidate in
order, stopping at the first that exists; returns the hit (if any)
and the list of paths actually probed. -/
def probeLoop (stat : String → Bool) : List String → Option String × List String
  | [] => (none, [])
  | p :: rest =>
    if stat p then (some p, [p])
    else
      let r := probeLoop stat rest
      (r.1, p :: r.2)

/-- Common body of `findWindowsChromeOrEdge` / `findLinuxChromePath`:
on a hit, store the path into the configuration cell and return it;
otherwise return `""` leaving the cell unchanged. -/
def findChrome (stat : String → Bool) (paths : List String) (s : String) :
    String × String × List String :=
  match probeLoop stat paths with
  | (some p, t) => (p, p, t)
  | (none, t) => ("", s, t)

/-- Shallow embedding of `findLinuxChromePath`. -/
def findLinuxChromePath (stat : String → Bool) (s : String) :
    String × String × List String :=
  findChrome stat linuxChromePaths s

/-- Shallow embedding of `findWindowsChromeOrEdge`. -/
def findWindowsChromeOrEdge (localAppData : String) (stat : String → Bool)
    (s : String) : String × String × List String :=
  findChrome stat (windowsChromePaths localAppData) s

/-- Shallow embedding of `resolveBrowserPath` (main.go lines
143-156): `s` is the current value of `globalBrowserPath`. -/
def resolveBrowserPath (goos : GOOS) (localAppData : String)
    (stat : String → Bool) (s : String) : String × String × List String :=
  if s ≠ "" then (s, s, [])
  else
    match goos with
    | .windows => findWindowsChromeOrEdge localAppData stat s
    | .linux => findLinuxChromePath stat s
    | .other _ => ("", s, [])

/-! ## Template machinery (template.go) -/

/-- The request payload bound from the JSON body (`PushPayload` in
main.go); the opaque `data` value is abstracted by its serialized
text, `none` standing for Go's nil interface (absent or null
`data`). -/
structure PushPayload where
  site : String
  type : String
  data : Option String
deriving DecidableEq

/-- Shallow embedding of `selectTemplate` (template.go lines 23-26):
a Go map lookup on `site + "/" + type` returning the zero value `""`
when the key is absent; the map itself is the totalized function
`templateMap`. -/
def selectTemplate (templateMap : String → String) (p : PushPayload) : String :=
  templateMap (p.site ++ "/" ++ p.type)

/-- Possible outcomes of running Go code that may panic. -/
inductive GoResult (α : Type) where
  | ret (a : α)
  | panicked (v : String)
deriving DecidableEq

/-- Outcome of one `tmpl.Execute` call, supplied by the oracle: a
rendered HTML string, an ordinary error, or a panic. -/
inductive ExecOutcome where
  | ok (html : String)
  | fail (e : String)
  | panics (v : String)
deriving DecidableEq

/-- The raw `tmpl.Execute(buf, data)` call: returns its error value
or unwinds with a panic. -/
def tmplExecute : ExecOutcome → GoResult (Except String String)
  | .ok html => .ret (.ok html)
  | .fail e => .ret (.error e)
  | .panics v => .panicked v

/-- Shallow embedding of `safeExecuteTemplate` (template.go lines
28-36): runs the template, and the deferred `recover` converts any
panic into the ordinary error `"模板渲染 panic: <v>"`. -/
def safeExecuteTemplate (outcome : ExecOutcome) : Except String String :=
  match tmplExecute outcome with
  | .ret r => r
  | .panicked v => .error ("模板渲染 panic: " ++ v)

/-! ## HTTP handler (main.go RenderHandler, lines 96-141) -/

/-- The HTTP response written by the handler: a JSON error body with
a status code (`c.JSON`), or a 200 response with
`Content-Type: image/png` whose body is the encoded PNG (recorded by
its dimensions). -/
inductive HttpResponse where
  | json (status : Nat) (jsonError : String)
  | png (dims : Int × Int)
deriving DecidableEq

/-- Trace of one handler invocation: the response, whether the
template was executed, the HTML string passed to `RenderScreenshot`
(`none` when the screenshot pipeline — and hence the tab context —
was never started), and the file-system operations performed. -/
structure HandlerTrace where
  resp : HttpResponse
  templateExecuted : Bool
  screenshotHtml : Option String
  fsOps : List FsOp
deriving DecidableEq

/-- Oracle for one handler invocation: the JSON binding outcome, the
current template map, the `template.ParseFiles` outcome, the
template-execution outcome, and the render-pipeline oracle. -/
structure HandlerOracle where
  bind : Except String PushPayload
  templateMap : String → String
  parseTmpl : Except String Unit
  exec : ExecOutcome
  render : RenderOracle
  tempDir : String
  ts : Nat

/-- The screenshot stage of the handler (main.go lines 131-141):
invoke `RenderScreenshot` on the rendered HTML; an error becomes a
500 JSON response, success becomes the PNG response. -/
def screenshotStage (o : HandlerOracle) (html : String)
    (executed : Bool) : HandlerTrace :=
  let res := RenderScreenshot o.render o.tempDir o.ts html
  match res.1 with
  | .error e => ⟨.json 500 e, executed, some html, res.2⟩
  | .ok dims => ⟨.png dims, executed, some html, res.2⟩

/-- Shallow embedding of `RenderHandler` (main.go lines 96-141):
bind the payload, select and parse the template, execute it through
`safeExecuteTemplate` only when `data` is non-nil, then screenshot
the buffer contents. -/
def RenderHandler (o : HandlerOracle) : HandlerTrace :=
  match o.bind with
  | .error e => ⟨.json 400 e, false, none, []⟩
  | .ok payload =>
    if selectTemplate o.templateMap payload = "" then
      ⟨.json 400 "no template found", false, none, []⟩
    else
      match o.parseTmpl with
      | .error e => ⟨.json 500 e, false, none, []⟩
      | .ok _ =>
        match payload.data with
        | none => screenshotStage o "" false
        | some _ =>
          match safeExecuteTemplate o.exec with
          | .error e =>
            ⟨.json 500 ("execute template failed: " ++ e), true, none, []⟩
          | .ok html => screenshotStage o html true

/-! ## Decimal representation helpers

`fmt.Sprintf("screenshot_%d.html", ts)` embeds the timestamp in
decimal, i.e. `Nat.repr`.  Distinct timestamps give distinct file
names because the decimal representation is injective; we prove this
by folding the digit characters back into the number. -/

/-- Decimal accumulator step: the value of digits read so far. -/
def digAcc (a : Nat) (c : Char) : Nat := a * 10 + (c.toNat - 48)

/-- The character produced by `Nat.digitChar` for a digit below ten
decodes back to that digit. -/
theorem digitChar_val {m : Nat} (h : m < 10) :
    (Nat.digitChar m).toNat - 48 = m := by
  interval_cases m <;> decide

/-- Value of the accumulator after the digits of `n` have been
appended to digits of value `a`. -/
def shiftAcc (a : Nat) (n : Nat) : Nat :=
  if n < 10 then a * 10 + n
  else shiftAcc a (n / 10) * 10 + n % 10
termination_by n
decreasing_by exact Nat.div_lt_self (by omega) (by omega)

/-- Folding the digits of `n` alone recovers `n`. -/
theorem shiftAcc_zero (n : Nat) : shiftAcc 0 n = n := by
  induction n using Nat.strong_induction_on with
  | _ n ih =>
    rw [shiftAcc]
    split
    · omega
    · rename_i h
      rw [ih (n / 10) (Nat.div_lt_self (by omega) (by omega))]
      omega

/-- Folding `digAcc` over the output of `Nat.toDigitsCore` (base 10,
enough fuel) extends the accumulator by the digits of `n`. -/
theorem toDigitsCore_foldl (fuel : Nat) :
    ∀ (n a : Nat) (ds : List Char), n < fuel →
      List.foldl digAcc a (Nat.toDigitsCore 10 fuel n ds) =
        List.foldl digAcc (shiftAcc a n) ds := by
  induction fuel with
  | zero => intro n a ds h; omega
  | succ fuel ih =>
    intro n a ds h
    simp only [Nat.toDigitsCore]
    split
    · rename_i hz
      have h10 : n < 10 := by omega
      rw [shiftAcc]
      simp only [h10, if_true, List.foldl_cons, digAcc,
        digitChar_val (Nat.mod_lt _ (by omega))]
      have hmod : n % 10 = n := Nat.mod_eq_of_lt h10
      rw [hmod]
    · rename_i hz
      have hlt : n / 10 < fuel := by omega
      rw [ih (n / 10) a (Nat.digitChar (n % 10) :: ds) hlt]
      simp only [List.foldl_cons, digAcc,
        digitChar_val (Nat.mod_lt _ (by omega))]
      have h10 : ¬ n < 10 := by omega
      conv_rhs => rw [shiftAcc]
      simp only [h10, if_false]

/-- Decimal printing of naturals is injective. -/
theorem repr_inj {m n : Nat} (h : Nat.repr m = Nat.repr n) : m = n := by
  have hd : Nat.toDigits 10 m = Nat.toDigits 10 n := by
    have hc := congrArg String.data h
    simpa [Nat.repr, List.asString] using hc
  have hm := toDigitsCore_foldl (m + 1) m 0 [] (by omega)
  have hn := toDigitsCore_foldl (n + 1) n 0 [] (by omega)
  have hfold : List.foldl digAcc 0 (Nat.toDigits 10 m) =
      List.foldl digAcc 0 (Nat.toDigits 10 n) := by rw [hd]
  unfold Nat.toDigits at hfold
  rw [hm, hn] at hfold
  simpa [List.foldl, shiftAcc_zero] using hfold

/-- Distinct timestamps give distinct temporary file names. -/
theorem tmpFile_inj (tempDir : String) {t1 t2 : Nat} (h : t1 ≠ t2) :
    tmpFile tempDir t1 ≠ tmpFile tempDir t2 := by
  intro he
  apply h
  apply repr_inj
  have hd := congrArg String.data he
  simp only [tmpFile, String.data_append, List.append_assoc] at hd
  have h1 := List.append_cancel_left hd
  have h2 := List.append_cancel_left h1
  have h3 := List.append_cancel_left h2
  have h4 := List.append_cancel_right h3
  exact String.ext h4

/-! ## Claim theorems -/

/-- C1 (counterexample): the claim's crop formula uses
`w = ceil(rectW * dpr)`, `h = ceil(rectH * dpr)`, but the code
truncates (`int(r.W * r.DPR)`).  For the measured rect
(0, 0, 3, 3) with dpr = 3/2 on a 100×100 frame, the spec formula
yields 5×5 while the code produces a 4×4 PNG. -/
theorem C1_ceil_counterexample :
    specCropDims ⟨0, 0, 3, 3, mkRat 3 2⟩ 100 100 = (5, 5) ∧
    cropAndEncode ⟨0, 0, 3, 3, mkRat 3 2⟩ 100 100 = .ok (4, 4) ∧
    cropAndEncode ⟨0, 0, 3, 3, mkRat 3 2⟩ 100 100 ≠
      .ok (specCropDims ⟨0, 0, 3, 3, mkRat 3 2⟩ 100 100) := by
  refine ⟨by with_unfolding_all decide, by with_unfolding_all decide,
    by with_unfolding_all decide⟩

/-- C1 (amended): for every measured rect and decoded frame, the PNG
returned by `RenderScreenshot` has the dimensions of the clamped
crop rectangle computed in device pixels by truncation (Go `int`
conversion): `x = trunc(rectX*dpr)` clamped below at 0, likewise
`y`, and `w = trunc(rectW*dpr)`, `h = trunc(rectH*dpr)` clamped so
that `w ≤ frameWidth - x` and `h ≤ frameHeight - y` — provided the
clamped width and height are positive (otherwise `png.Encode`
rejects the image) and the frame is a valid PNG frame
(dimensions below 2^32). -/
theorem C1_crop_dims (r : Rect) (fw fh : Int)
    (hw : 0 < cropW r fw) (hh : 0 < cropH r fh)
    (hfw : fw < 2 ^ 32) (hfh : fh < 2 ^ 32) :
    cropAndEncode r fw fh = .ok (cropW r fw, cropH r fh) ∧
    cropW r fw ≤ fw - cropX r ∧ cropH r fh ≤ fh - cropY r :=
  ⟨cropAndEncode_ok r fw fh hw hh hfw hfh, min_le_right _ _, min_le_right _ _⟩

/-- C1 witness: the amended statement evaluated at the rect
(0, 0, 3, 3) with dpr = 3/2 on a 100×100 frame. -/
theorem C1_crop_dims_witness :
    cropAndEncode ⟨0, 0, 3, 3, mkRat 3 2⟩ 100 100 =
      .ok (cropW ⟨0, 0, 3, 3, mkRat 3 2⟩ 100, cropH ⟨0, 0, 3, 3, mkRat 3 2⟩ 100) ∧
    cropW ⟨0, 0, 3, 3, mkRat 3 2⟩ 100 ≤ 100 - cropX ⟨0, 0, 3, 3, mkRat 3 2⟩ ∧
    cropH ⟨0, 0, 3, 3, mkRat 3 2⟩ 100 ≤ 100 - cropY ⟨0, 0, 3, 3, mkRat 3 2⟩ :=
  C1_crop_dims ⟨0, 0, 3, 3, mkRat 3 2⟩ 100 100 (by with_unfolding_all decide)
    (by with_unfolding_all decide) (by decide) (by decide)

/-- C2 (counterexample): the claim says every crop rectangle
extending beyond the frame is shrunk to fit and the crop-and-encode
step still succeeds; but for a measured rect starting at the frame's
right edge (x = 100 on a 100-pixel-wide frame, so x + w = 150
exceeds it), the clamped width is 0 and `png.Encode` fails with
"invalid image size", so the step errors instead of succeeding. -/
theorem C2_beyond_frame_counterexample :
    (100 : Int) < cropX ⟨100, 0, 50, 50, 1⟩ + devW ⟨100, 0, 50, 50, 1⟩ ∧
    cropAndEncode ⟨100, 0, 50, 50, 1⟩ 100 100 =
      .error "invalid image size: 0x50" := by
  refine ⟨by with_unfolding_all decide, by with_unfolding_all decide⟩

/-- C2 (amended): for every measured rect whose device-pixel
rectangle extends beyond the captured frame, if the clamped
rectangle is non-degenerate (its origin lies strictly inside the
frame and the unclamped device-pixel width and height are at least
one pixel), the crop is deterministically shrunk to fit inside the
frame: crop-and-encode succeeds without error and the output
dimensions are positive — never negative. -/
theorem C2_clamped_crop (r : Rect) (fw fh : Int)
    (hbeyond : fw < cropX r + devW r ∨ fh < cropY r + devH r)
    (hx : cropX r < fw) (hy : cropY r < fh)
    (hw : 1 ≤ devW r) (hh : 1 ≤ devH r)
    (hfw : fw < 2 ^ 32) (hfh : fh < 2 ^ 32) :
    ∃ dw dh, cropAndEncode r fw fh = .ok (dw, dh) ∧
      0 < dw ∧ 0 < dh ∧ 0 ≤ cropX r ∧ 0 ≤ cropY r ∧
      cropX r + dw ≤ fw ∧ cropY r + dh ≤ fh := by
  have hwpos : 0 < cropW r fw := by
    simp only [cropW, lt_min_iff]
    exact ⟨by omega, by omega⟩
  have hhpos : 0 < cropH r fh := by
    simp only [cropH, lt_min_iff]
    exact ⟨by omega, by omega⟩
  refine ⟨cropW r fw, cropH r fh, cropAndEncode_ok r fw fh hwpos hhpos hfw hfh,
    hwpos, hhpos, le_max_left 0 _, le_max_left 0 _, ?_, ?_⟩
  · have := min_le_right (devW r) (fw - cropX r)
    simp only [cropW] at *
    omega
  · have := min_le_right (devH r) (fh - cropY r)
    simp only [cropH] at *
    omega

/-- C2 witness: the amended statement evaluated at the rect
(90, 90, 20, 20) with dpr = 1 on a 100×100 frame, which extends 10
pixels beyond both frame edges. -/
theorem C2_clamped_crop_witness :
    ∃ dw dh, cropAndEncode ⟨90, 90, 20, 20, 1⟩ 100 100 = .ok (dw, dh) ∧
      0 < dw ∧ 0 < dh ∧ 0 ≤ cropX ⟨90, 90, 20, 20, 1⟩ ∧
      0 ≤ cropY ⟨90, 90, 20, 20, 1⟩ ∧
      cropX ⟨90, 90, 20, 20, 1⟩ + dw ≤ 100 ∧
      cropY ⟨90, 90, 20, 20, 1⟩ + dh ≤ 100 :=
  C2_clamped_crop ⟨90, 90, 20, 20, 1⟩ 100 100
    (Or.inl (by with_unfolding_all decide))
    (by with_unfolding_all decide) (by with_unfolding_all decide)
    (by with_unfolding_all decide) (by with_unfolding_all decide)
    (by decide) (by decide)

/-- C3: the temporary HTML file is uniquely named (distinct
per-call timestamps yield distinct names, so concurrent requests
never overwrite each other's file), and whenever the write succeeds,
every exit path of `RenderScreenshot` — success or failure of any
later stage — deletes the file: the trace is exactly the write
followed, at exit, by the remove of the same path. -/
theorem C3_tmpfile_unique_and_cleanup (tempDir : String) (t1 t2 : Nat)
    (o : RenderOracle) (html : String) :
    (t1 ≠ t2 → tmpFile tempDir t1 ≠ tmpFile tempDir t2) ∧
    (o.writeErr = none →
      (RenderScreenshot o tempDir t1 html).2 =
        [FsOp.write (tmpFile tempDir t1) html,
         FsOp.remove (tmpFile tempDir t1)]) := by
  constructor
  · exact fun h => tmpFile_inj tempDir h
  · intro hw
    simp [RenderScreenshot, hw]

/-- C3 witness: distinct timestamps 1 and 2 give distinct names, and
a successful write leads to a write/remove bracket for a concrete
oracle. -/
theorem C3_tmpfile_witness :
    tmpFile "/tmp" 1 ≠ tmpFile "/tmp" 2 ∧
    (RenderScreenshot ⟨none, .ok (), .ok "m", .ok ⟨0, 0, 1, 1, 1⟩,
        .ok [1], .ok (some (10, 10))⟩ "/tmp" 1 "<p>x</p>").2 =
      [FsOp.write (tmpFile "/tmp" 1) "<p>x</p>",
       FsOp.remove (tmpFile "/tmp" 1)] :=
  ⟨(C3_tmpfile_unique_and_cleanup "/tmp" 1 2
      ⟨none, .ok (), .ok "m", .ok ⟨0, 0, 1, 1, 1⟩, .ok [1],
        .ok (some (10, 10))⟩ "<p>x</p>").1 (by decide),
   (C3_tmpfile_unique_and_cleanup "/tmp" 1 2
      ⟨none, .ok (), .ok "m", .ok ⟨0, 0, 1, 1, 1⟩, .ok [1],
        .ok (some (10, 10))⟩ "<p>x</p>").2 rfl⟩

/-- C4: the release function returned by `NewTabContext` cancels the
deadline timer first and the tab's execution context second, in that
strict order, and is idempotent: a second call performs the same
(no-op) cancels, raises nothing, and leaves the state exactly as
after the first call. -/
theorem C4_release_order_idempotent (s : TabCtxState) :
    (runRelease s).2 = [CancelEvent.timeout, CancelEvent.tab] ∧
    (runRelease s).1 = ⟨true, true⟩ ∧
    (runRelease (runRelease s).1).1 = (runRelease s).1 :=
  ⟨rfl, rfl, rfl⟩

/-- C5: the auth middleware rejects a request with HTTP 401 and the
JSON error body "unauthorized" exactly when the configured token is
non-empty and the Authorization header differs from it; an empty
configured token disables authentication, and an exact match always
passes. -/
theorem C5_auth_token_gate (token header : String) :
    (AuthMiddleware token header = .abort 401 "unauthorized" ↔
      token ≠ "" ∧ header ≠ token) ∧
    (token = "" → AuthMiddleware token header = .next) ∧
    (header = token → AuthMiddleware token header = .next) := by
  unfold AuthMiddleware
  refine ⟨?_, ?_, ?_⟩
  · constructor
    · intro h
      by_contra hc
      simp only [if_neg hc] at h
      exact AuthOutcome.noConfusion h
    · intro h
      simp [h]
  · intro h
    simp [h]
  · intro h
    simp [h]

/-- C5 witness: with configured token "secret", the header "wrong"
is rejected with 401 and an exact match passes. -/
theorem C5_auth_token_gate_witness :
    AuthMiddleware "secret" "wrong" = .abort 401 "unauthorized" ∧
    AuthMiddleware "secret" "secret" = .next :=
  ⟨(C5_auth_token_gate "secret" "wrong").1.mpr ⟨by decide, by decide⟩,
   (C5_auth_token_gate "secret" "secret").2.2 rfl⟩

/-- C6: a request whose body fails JSON binding, or whose
(site, type) has no registered template, receives HTTP 400 with a
JSON error body (the latter saying "no template found"), and no
engine interaction occurs: the screenshot pipeline is never started
(no tab context, no file-system activity) and the template is never
executed. -/
theorem C6_bad_request_no_engine (o : HandlerOracle) :
    (∀ e, o.bind = .error e →
      RenderHandler o = ⟨.json 400 e, false, none, []⟩) ∧
    (∀ p, o.bind = .ok p → selectTemplate o.templateMap p = "" →
      RenderHandler o = ⟨.json 400 "no template found", false, none, []⟩) := by
  constructor
  · intro e hb
    simp [RenderHandler, hb]
  · intro p hb ht
    simp [RenderHandler, hb, ht]

/-- C6 witness: a binding failure and a missing template, each on a
concrete oracle. -/
theorem C6_bad_request_no_engine_witness :
    RenderHandler ⟨.error "bad json", fun _ => "", .ok (), .ok "",
        ⟨none, .ok (), .ok "", .ok ⟨0, 0, 1, 1, 1⟩, .ok [1],
          .ok (some (8, 8))⟩, "/tmp", 0⟩ =
      ⟨.json 400 "bad json", false, none, []⟩ ∧
    RenderHandler ⟨.ok ⟨"siteA", "typeB", none⟩, fun _ => "", .ok (),
        .ok "", ⟨none, .ok (), .ok "", .ok ⟨0, 0, 1, 1, 1⟩, .ok [1],
          .ok (some (8, 8))⟩, "/tmp", 0⟩ =
      ⟨.json 400 "no template found", false, none, []⟩ :=
  ⟨(C6_bad_request_no_engine _).1 "bad json" rfl,
   (C6_bad_request_no_engine _).2 ⟨"siteA", "typeB", none⟩ rfl rfl⟩

/-- C7: an empty full-frame capture and undecodable capture bytes
both fail the pipeline with an error (and hence no image bytes
reach the caller), and every handler response is either a JSON
error body or a PNG that is exactly the successful output of the
whole pipeline — never a partial or corrupt image. -/
theorem C7_no_partial_image (o : HandlerOracle) (ro : RenderOracle) :
    (∀ r js, ro.nav = .ok () → ro.measureJs = .ok js →
      ro.parseRect = .ok r → ro.capture = .ok [] →
      renderResult ro = .error "screenshot data is empty") ∧
    (∀ r js full e, ro.nav = .ok () → ro.measureJs = .ok js →
      ro.parseRect = .ok r → ro.capture = .ok full → full ≠ [] →
      ro.decode = .error e →
      renderResult ro = .error ("failed to decode screenshot: " ++ e)) ∧
    ((∃ s msg, (RenderHandler o).resp = .json s msg) ∨
     (∃ dims html, (RenderHandler o).resp = .png dims ∧
       (RenderHandler o).screenshotHtml = some html ∧
       (RenderScreenshot o.render o.tempDir o.ts html).1 = .ok dims)) := by
  refine ⟨?_, ?_, ?_⟩
  · intro r js hn hm hp hc
    simp [renderResult, hn, hm, hp, hc]
  · intro r js full e hn hm hp hc hne hd
    have hlen : ¬ full.length = 0 := by
      simpa [List.length_eq_zero] using hne
    simp [renderResult, hn, hm, hp, hc, hlen, hd]
  · unfold RenderHandler
    rcases hb : o.bind with e | payload
    · exact Or.inl ⟨400, e, rfl⟩
    · by_cases ht : selectTemplate o.templateMap payload = ""
      · simp only [ht, if_true]
        exact Or.inl ⟨400, "no template found", rfl⟩
      · simp only [ht, if_false]
        rcases hp : o.parseTmpl with e | u
        · exact Or.inl ⟨500, e, rfl⟩
        · have hstage : ∀ (html : String) (ex : Bool),
              (∃ s msg, (screenshotStage o html ex).resp = .json s msg) ∨
              (∃ dims h2, (screenshotStage o html ex).resp = .png dims ∧
                (screenshotStage o html ex).screenshotHtml = some h2 ∧
                (RenderScreenshot o.render o.tempDir o.ts h2).1 = .ok dims) := by
            intro html ex
            unfold screenshotStage
            rcases hr : (RenderScreenshot o.render o.tempDir o.ts html).1 with e | dims
            · exact Or.inl ⟨500, e, by simp [hr]⟩
            · exact Or.inr ⟨dims, html, by simp [hr], by simp [hr], hr⟩
          rcases hd : payload.data with _ | d
          · exact hstage "" false
          · rcases he : safeExecuteTemplate o.exec with e | html
            · exact Or.inl ⟨500, "execute template failed: " ++ e, rfl⟩
            · exact hstage html true

/-- C7 witness: the empty-capture error, the undecodable-capture
error, and the response dichotomy, each at a concrete oracle. -/
theorem C7_no_partial_image_witness :
    renderResult ⟨none, .ok (), .ok "m", .ok ⟨0, 0, 1, 1, 1⟩, .ok [],
        .ok (some (8, 8))⟩ = .error "screenshot data is empty" ∧
    renderResult ⟨none, .ok (), .ok "m", .ok ⟨0, 0, 1, 1, 1⟩, .ok [7],
        .error "not a PNG"⟩ =
      .error ("failed to decode screenshot: " ++ "not a PNG") ∧
    ((∃ s msg, (RenderHandler ⟨.error "bad", fun _ => "", .ok (), .ok "",
        ⟨none, .ok (), .ok "m", .ok ⟨0, 0, 1, 1, 1⟩, .ok [7],
          .ok (some (8, 8))⟩, "/tmp", 0⟩).resp = .json s msg) ∨
     (∃ dims html, (RenderHandler ⟨.error "bad", fun _ => "", .ok (), .ok "",
        ⟨none, .ok (), .ok "m", .ok ⟨0, 0, 1, 1, 1⟩, .ok [7],
          .ok (some (8, 8))⟩, "/tmp", 0⟩).resp = .png dims ∧
       (RenderHandler ⟨.error "bad", fun _ => "", .ok (), .ok "",
        ⟨none, .ok (), .ok "m", .ok ⟨0, 0, 1, 1, 1⟩, .ok [7],
          .ok (some (8, 8))⟩, "/tmp", 0⟩).screenshotHtml = some html ∧
       (RenderScreenshot ⟨none, .ok (), .ok "m", .ok ⟨0, 0, 1, 1, 1⟩,
          .ok [7], .ok (some (8, 8))⟩ "/tmp" 0 html).1 = .ok dims)) :=
  ⟨(C7_no_partial_image ⟨.error "bad", fun _ => "", .ok (), .ok "",
      ⟨none, .ok (), .ok "m", .ok ⟨0, 0, 1, 1, 1⟩, .ok [7],
        .ok (some (8, 8))⟩, "/tmp", 0⟩
      ⟨none, .ok (), .ok "m", .ok ⟨0, 0, 1, 1, 1⟩, .ok [],
        .ok (some (8, 8))⟩).1 ⟨0, 0, 1, 1, 1⟩ "m" rfl rfl rfl rfl,
   (C7_no_partial_image ⟨.error "bad", fun _ => "", .ok (), .ok "",
      ⟨none, .ok (), .ok "m", .ok ⟨0, 0, 1, 1, 1⟩, .ok [7],
        .ok (some (8, 8))⟩, "/tmp", 0⟩
      ⟨none, .ok (), .ok "m", .ok ⟨0, 0, 1, 1, 1⟩, .ok [7],
        .error "not a PNG"⟩).2.1 ⟨0, 0, 1, 1, 1⟩ "m" [7] "not a PNG"
      rfl rfl rfl rfl (by decide) rfl,
   (C7_no_partial_image ⟨.error "bad", fun _ => "", .ok (), .ok "",
      ⟨none, .ok (), .ok "m", .ok ⟨0, 0, 1, 1, 1⟩, .ok [7],
        .ok (some (8, 8))⟩, "/tmp", 0⟩
      ⟨none, .ok (), .ok "m", .ok ⟨0, 0, 1, 1, 1⟩, .ok [7],
        .ok (some (8, 8))⟩).2.2⟩

/-- C8: the raw template execution may panic, but
`safeExecuteTemplate` recovers every panic into an ordinary error
value (so the process is never terminated), and the handler turns
that error into an HTTP 500 JSON response. -/
theorem C8_panic_recovered (o : HandlerOracle) (v : String) :
    tmplExecute (.panics v) = .panicked v ∧
    safeExecuteTemplate (.panics v) = .error ("模板渲染 panic: " ++ v) ∧
    (∀ p d, o.bind = .ok p → selectTemplate o.templateMap p ≠ "" →
      o.parseTmpl = .ok () → p.data = some d → o.exec = .panics v →
      (RenderHandler o).resp =
        .json 500 ("execute template failed: " ++ ("模板渲染 panic: " ++ v))) := by
  refine ⟨rfl, rfl, ?_⟩
  intro p d hb ht hp hd he
  simp [RenderHandler, hb, ht, hp, hd, he, safeExecuteTemplate, tmplExecute]

/-- C8 witness: a concrete panicking template execution is recovered
and surfaces as a 500 JSON response. -/
theorem C8_panic_recovered_witness :
    safeExecuteTemplate (.panics "boom") =
      .error ("模板渲染 panic: " ++ "boom") ∧
    (RenderHandler ⟨.ok ⟨"a", "b", some "d"⟩,
        fun _ => "templates/a_b.html", .ok (), .panics "boom",
        ⟨none, .ok (), .ok "m", .ok ⟨0, 0, 1, 1, 1⟩, .ok [7],
          .ok (some (8, 8))⟩, "/tmp", 0⟩).resp =
      .json 500 ("execute template failed: " ++ ("模板渲染 panic: " ++ "boom")) :=
  ⟨(C8_panic_recovered ⟨.ok ⟨"a", "b", some "d"⟩,
      fun _ => "templates/a_b.html", .ok (), .panics "boom",
      ⟨none, .ok (), .ok "m", .ok ⟨0, 0, 1, 1, 1⟩, .ok [7],
        .ok (some (8, 8))⟩, "/tmp", 0⟩ "boom").2.1,
   (C8_panic_recovered ⟨.ok ⟨"a", "b", some "d"⟩,
      fun _ => "templates/a_b.html", .ok (), .panics "boom",
      ⟨none, .ok (), .ok "m", .ok ⟨0, 0, 1, 1, 1⟩, .ok [7],
        .ok (some (8, 8))⟩, "/tmp", 0⟩ "boom").2.2 ⟨"a", "b", some "d"⟩
     "d" rfl (by decide) rfl rfl rfl⟩

/-- C10: a successfully bound request with a registered template and
nil `data` skips template execution entirely and screenshots the
empty HTML document; when the capture pipeline succeeds the handler
responds 200 with Content-Type image/png (the `png` response). -/
theorem C10_nil_data_skips_template (o : HandlerOracle) (p : PushPayload)
    (dims : Int × Int) (hb : o.bind = .ok p) (hd : p.data = none)
    (ht : selectTemplate o.templateMap p ≠ "")
    (hp : o.parseTmpl = .ok ())
    (hs : (RenderScreenshot o.render o.tempDir o.ts "").1 = .ok dims) :
    RenderHandler o = ⟨.png dims, false, some "",
      (RenderScreenshot o.render o.tempDir o.ts "").2⟩ := by
  simp [RenderHandler, hb, ht, hp, hd, screenshotStage, hs]

/-- C10 witness: the nil-data path evaluated on a concrete oracle
with a successful capture. -/
theorem C10_nil_data_skips_template_witness :
    RenderHandler ⟨.ok ⟨"a", "b", none⟩, fun _ => "templates/a_b.html",
        .ok (), .ok "unused", ⟨none, .ok (), .ok "m",
          .ok ⟨0, 0, 1, 1, 1⟩, .ok [7], .ok (some (8, 8))⟩, "/tmp", 0⟩ =
      ⟨.png (1, 1), false, some "",
        (RenderScreenshot ⟨none, .ok (), .ok "m", .ok ⟨0, 0, 1, 1, 1⟩,
          .ok [7], .ok (some (8, 8))⟩ "/tmp" 0 "").2⟩ :=
  C10_nil_data_skips_template ⟨.ok ⟨"a", "b", none⟩,
      fun _ => "templates/a_b.html", .ok (), .ok "unused",
      ⟨none, .ok (), .ok "m", .ok ⟨0, 0, 1, 1, 1⟩, .ok [7],
        .ok (some (8, 8))⟩, "/tmp", 0⟩ ⟨"a", "b", none⟩ (1, 1)
    rfl rfl (by decide) rfl (by with_unfolding_all decide)

/-- The probe loop stops at the first existing path, in list
order. -/
theorem probeLoop_fst (stat : String → Bool) (l : List String) :
    (probeLoop stat l).1 = l.find? stat := by
  induction l with
  | nil => rfl
  | cons p rest ih =>
    by_cases h : stat p
    · simp [probeLoop, h, List.find?_cons_of_pos _ h]
    · simp only [probeLoop, h, if_false, List.find?_cons_of_neg _ (by simpa using h)]
      exact ih

/-- When no path exists, the probe loop probes the whole list. -/
theorem probeLoop_none (stat : String → Bool) (l : List String)
    (h : l.find? stat = none) : probeLoop stat l = (none, l) := by
  induction l with
  | nil => rfl
  | cons p rest ih =>
    have hp : ¬ stat p := by
      intro hs
      simp [List.find?_cons_of_pos _ hs] at h
    have hrest : rest.find? stat = none := by
      rwa [List.find?_cons_of_neg _ (by simpa using hp)] at h
    simp [probeLoop, hp, ih hrest]

/-- Every candidate browser path in either probe list is a
non-empty string. -/
theorem chromePaths_ne_empty (lad : String) :
    (∀ p ∈ linuxChromePaths, p ≠ "") ∧
    (∀ p ∈ windowsChromePaths lad, p ≠ "") := by
  constructor
  · intro p hp
    fin_cases hp <;> decide
  · intro p hp
    fin_cases hp
    · decide
    · decide
    · intro h
      have hd := congrArg String.data h
      simp [String.data_append] at hd
    · decide
    · decide

/-- C9: `resolveBrowserPath` returns a non-empty configured path
unchanged without probing; with an empty configured path it probes
the fixed OS-specific ordered list, returns the first path that
exists, stores it back into the configuration cell (so a second call
returns the cached value with no probing), and returns the empty
string — leaving the cell empty — when no listed path exists or the
OS is neither windows nor linux. -/
theorem C9_resolve_browser_path (goos : GOOS) (lad : String)
    (stat : String → Bool) (s : String) :
    (s ≠ "" → resolveBrowserPath goos lad stat s = (s, s, [])) ∧
    (∀ p, linuxChromePaths.find? stat = some p →
      (resolveBrowserPath .linux lad stat "").1 = p ∧
      (resolveBrowserPath .linux lad stat "").2.1 = p ∧
      resolveBrowserPath .linux lad stat p = (p, p, [])) ∧
    (∀ p, (windowsChromePaths lad).find? stat = some p →
      (resolveBrowserPath .windows lad stat "").1 = p ∧
      (resolveBrowserPath .windows lad stat "").2.1 = p ∧
      resolveBrowserPath .windows lad stat p = (p, p, [])) ∧
    (linuxChromePaths.find? stat = none →
      resolveBrowserPath .linux lad stat "" = ("", "", linuxChromePaths)) ∧
    ((windowsChromePaths lad).find? stat = none →
      resolveBrowserPath .windows lad stat "" =
        ("", "", windowsChromePaths lad)) ∧
    (∀ name, resolveBrowserPath (.other name) lad stat "" = ("", "", [])) := by
  have hfind : ∀ (paths : List String) (p : String),
      paths.find? stat = some p →
      findChrome stat paths "" = (p, p, (probeLoop stat paths).2) := by
    intro paths p hp
    unfold findChrome
    have h1 : (probeLoop stat paths).1 = some p := by
      rw [probeLoop_fst]; exact hp
    rcases hpl : probeLoop stat paths with ⟨r1, r2⟩
    rw [hpl] at h1
    simp only at h1
    subst h1
    rfl
  refine ⟨?_, ?_, ?_, ?_, ?_, ?_⟩
  · intro hs
    simp [resolveBrowserPath, hs]
  · intro p hp
    have hne : p ≠ "" :=
      (chromePaths_ne_empty lad).1 p (List.mem_of_find?_eq_some hp)
    have hr : resolveBrowserPath .linux lad stat "" =
        (p, p, (probeLoop stat linuxChromePaths).2) := by
      simp only [resolveBrowserPath, findLinuxChromePath]
      rw [if_neg (by simp)]
      exact hfind _ p hp
    exact ⟨by rw [hr], by rw [hr], by simp [resolveBrowserPath, hne]⟩
  · intro p hp
    have hne : p ≠ "" :=
      (chromePaths_ne_empty lad).2 p (List.mem_of_find?_eq_some hp)
    have hr : resolveBrowserPath .windows lad stat "" =
        (p, p, (probeLoop stat (windowsChromePaths lad)).2) := by
      simp only [resolveBrowserPath, findWindowsChromeOrEdge]
      rw [if_neg (by simp)]
      exact hfind _ p hp
    exact ⟨by rw [hr], by rw [hr], by simp [resolveBrowserPath, hne]⟩
  · intro hp
    simp only [resolveBrowserPath, findLinuxChromePath, findChrome]
    rw [if_neg (by simp), probeLoop_none stat _ hp]
  · intro hp
    simp only [resolveBrowserPath, findWindowsChromeOrEdge, findChrome]
    rw [if_neg (by simp), probeLoop_none stat _ hp]
  · intro name
    simp [resolveBrowserPath]

/-- C9 witness: with only `/usr/bin/chromium` present on disk, a
first call on an empty configuration probes and returns it, and a
second call on the now-cached value returns it without probing; a
non-empty configured path is returned unchanged. -/
theorem C9_resolve_browser_path_witness :
    (resolveBrowserPath .linux ""
        (fun p => p = "/usr/bin/chromium") "").1 = "/usr/bin/chromium" ∧
    (resolveBrowserPath .linux ""
        (fun p => p = "/usr/bin/chromium") "").2.1 = "/usr/bin/chromium" ∧
    resolveBrowserPath .linux "" (fun p => p = "/usr/bin/chromium")
        "/usr/bin/chromium" =
      ("/usr/bin/chromium", "/usr/bin/chromium", []) ∧
    resolveBrowserPath .windows "C:\\U" (fun _ => false) "/opt/custom" =
      ("/opt/custom", "/opt/custom", []) :=
  ⟨((C9_resolve_browser_path .linux ""
      (fun p => p = "/usr/bin/chromium") "").2.1 "/usr/bin/chromium"
      (by decide)).1,
   ((C9_resolve_browser_path .linux ""
      (fun p => p = "/usr/bin/chromium") "").2.1 "/usr/bin/chromium"
      (by decide)).2.1,
   ((C9_resolve_browser_path .linux ""
      (fun p => p = "/usr/bin/chromium") "").2.1 "/usr/bin/chromium"
      (by decide)).2.2,
   (C9_resolve_browser_path .windows "C:\\U" (fun _ => false)
      "/opt/custom").1 (by decide)⟩

end SnapCast
